import Mathlib

/-!
Verification of the FlowNodeInstance ledger (process-engine flow_node_instance.contracts).

The repository source (src/unnamed/part_000) declares the interface
IFlowNodeInstanceService: the signatures and documented behavior of the
lifecycle transitions (persistOnEnter, persistOnExit, persistOnError,
persistOnTerminate, suspend, resume) and of the query and cleanup surface.
The executable state machine behind the interface is not part of the
repository, so it is modelled here from the specification (the transition
table of section 4.1, the query engine of section 4.3, the cleanup of
section 4.4 and the failure semantics of section 7), and the claims are
settled against that model.
-/

namespace FlowNodeInstanceService

/-- Modelled from the spec: the closed set of BPMN element kinds used to tag a
FlowNode (the BpmnType constant imported by src/src/types/model/flow_node.ts is
not part of the repository sources). -/
inductive BpmnType
  | startEvent
  | endEvent
  | task
  | gateway
  | other
  deriving DecidableEq

/-- Modelled from the spec: extension metadata attached to a FlowNode (the
ExtensionElements type imported by src/src/types/model/flow_node.ts is not part
of the repository sources); opaque key and value pairs. -/
structure ExtensionElements where
  properties : List (String × String)
  deriving DecidableEq

/-- Embedded from src/src/types/model/flow_node.ts: the base descriptor of a
flow node, with id, optional documentation, optional extension elements,
bpmnType, name, incoming and outgoing sequence-flow ids, and an optional
default outgoing sequence-flow id. -/
structure FlowNode where
  id : String
  documentation : Option (List String) := none
  extensionElements : Option ExtensionElements := none
  bpmnType : BpmnType
  name : String
  incoming : List String := []
  outgoing : List String := []
  defaultOutgoingSequenceFlowId : Option String := none
  deriving DecidableEq

/-- Modelled from the spec: the state of a FlowNodeInstance, one of
running, suspended, finished, error, terminated (section 3; the
FlowNodeInstanceState type imported by src/unnamed/part_000 is not part of the
repository sources). -/
inductive FlowNodeInstanceState
  | running
  | suspended
  | finished
  | error
  | terminated
  deriving DecidableEq

/-- Modelled from the spec: a FlowNodeInstanceState is terminal when it is
finished, error or terminated (section 3). -/
def FlowNodeInstanceState.isTerminal : FlowNodeInstanceState → Bool
  | .finished => true
  | .error => true
  | .terminated => true
  | _ => false

/-- Modelled from the spec: a ProcessToken belongs to exactly one process
instance and carries a payload plus a history of prior payload snapshots
(section 3); it also carries the correlation and process-model references that
persistOnEnter copies onto the created instance record (the ProcessToken type
imported by src/unnamed/part_000 is not part of the repository sources). -/
structure ProcessToken where
  processInstanceId : String
  processModelId : String
  correlationId : String
  payload : String
  payloadHistory : List String := []
  deriving DecidableEq

/-- Modelled from the spec: the error recorded by persistOnError, a kind plus a
message (section 3). -/
structure ProcessError where
  kind : String
  message : String
  deriving DecidableEq

/-- Modelled from the spec: the FlowNodeInstance record (section 3): identity,
references, state, token snapshot, optional error, and timestamps (the
FlowNodeInstance type imported by src/unnamed/part_000 is not part of the
repository sources). -/
structure FlowNodeInstance where
  flowNodeInstanceId : String
  flowNodeId : String
  processInstanceId : String
  processModelId : String
  correlationId : String
  previousFlowNodeInstanceId : Option String
  state : FlowNodeInstanceState
  token : ProcessToken
  error : Option ProcessError
  enteredAt : Nat
  exitedAt : Option Nat
  deriving DecidableEq

/-- Modelled from the spec: the error taxonomy surfaced to callers that the
pure model can exhibit (section 7): NotFound and InvalidStateTransition. -/
inductive LedgerError
  | notFound
  | invalidStateTransition
  deriving DecidableEq

instance {ε α : Type} [DecidableEq ε] [DecidableEq α] : DecidableEq (Except ε α) := fun x y =>
  match x, y with
  | .ok a, .ok b =>
    if h : a = b then isTrue (by rw [h])
    else isFalse (by intro hc; injection hc; contradiction)
  | .error a, .error b =>
    if h : a = b then isTrue (by rw [h])
    else isFalse (by intro hc; injection hc; contradiction)
  | .ok _, .error _ => isFalse (by intro hc; exact Except.noConfusion hc)
  | .error _, .ok _ => isFalse (by intro hc; exact Except.noConfusion hc)

/-- Modelled from the spec: the ledger state behind IFlowNodeInstanceService —
the Instance Store (current snapshot of every instance, in entry order), the
Token Store (token snapshots written by the persist transitions), and a logical
clock supplying entry timestamps (sections 2 and 3). -/
structure Ledger where
  instances : List FlowNodeInstance
  tokens : List ProcessToken
  clock : Nat
  deriving DecidableEq

/-- The empty ledger: no instances, no tokens, clock at zero. -/
def emptyLedger : Ledger := { instances := [], tokens := [], clock := 0 }

/-- Modelled from the spec: lookup of the current snapshot of an instance by
its flowNodeInstanceId (unique across the ledger, section 3). -/
def findInstance (s : Ledger) (flowNodeInstanceId : String) : Option FlowNodeInstance :=
  s.instances.find? (fun i => i.flowNodeInstanceId == flowNodeInstanceId)

/-- Modelled from the spec: replace the stored snapshot of the instance with
the given id by a new snapshot (the Lifecycle Controller writing through the
Instance Store, section 4.1). -/
def setInstance (s : Ledger) (flowNodeInstanceId : String) (i2 : FlowNodeInstance) : Ledger :=
  { s with instances :=
      s.instances.map (fun j => if j.flowNodeInstanceId == flowNodeInstanceId then i2 else j) }

/-- Modelled from the spec: persistOnEnter (src/unnamed/part_000 lines 25-30
declares the signature; section 4.1 row one gives the behavior): creates the
instance in state running, recording the previous instance id if given; the
flowNodeInstanceId is assigned exactly once, so a call for an id that already
exists is a transition attempt from an incompatible source state and fails
with InvalidStateTransition. Writes the token snapshot to the Token Store. -/
def persistOnEnter (flowNode : FlowNode) (flowNodeInstanceId : String) (token : ProcessToken)
    (previousFlowNodeInstanceId : Option String) (s : Ledger) :
    Except LedgerError FlowNodeInstance × Ledger :=
  match findInstance s flowNodeInstanceId with
  | some _ => (Except.error LedgerError.invalidStateTransition, s)
  | none =>
    let inst : FlowNodeInstance :=
      { flowNodeInstanceId := flowNodeInstanceId
        flowNodeId := flowNode.id
        processInstanceId := token.processInstanceId
        processModelId := token.processModelId
        correlationId := token.correlationId
        previousFlowNodeInstanceId := previousFlowNodeInstanceId
        state := FlowNodeInstanceState.running
        token := token
        error := none
        enteredAt := s.clock
        exitedAt := none }
    (Except.ok inst,
      { instances := s.instances ++ [inst]
        tokens := s.tokens ++ [token]
        clock := s.clock + 1 })

/-- Modelled from the spec: persistOnExit (src/unnamed/part_000 lines 32-41
declares the signature; section 4.1 row two gives the behavior): from running
or suspended to finished, updating the token snapshot, recording the exit
timestamp and writing the token to the Token Store; NotFound on an unknown id,
InvalidStateTransition from any other state. -/
def persistOnExit (flowNode : FlowNode) (flowNodeInstanceId : String) (token : ProcessToken)
    (s : Ledger) : Except LedgerError FlowNodeInstance × Ledger :=
  match findInstance s flowNodeInstanceId with
  | none => (Except.error LedgerError.notFound, s)
  | some i =>
    if i.state = FlowNodeInstanceState.running ∨ i.state = FlowNodeInstanceState.suspended then
      let i2 := { i with
        state := FlowNodeInstanceState.finished
        token := token
        exitedAt := some s.clock }
      (Except.ok i2,
        { setInstance s flowNodeInstanceId i2 with
            tokens := s.tokens ++ [token]
            clock := s.clock + 1 })
    else (Except.error LedgerError.invalidStateTransition, s)

/-- Modelled from the spec: persistOnError (src/unnamed/part_000 lines 43-55
declares the signature; section 4.1 row three gives the behavior): from running
or suspended to error, recording the error kind and message, updating the token
snapshot and the exit timestamp; NotFound on an unknown id,
InvalidStateTransition from any other state. -/
def persistOnError (flowNode : FlowNode) (flowNodeInstanceId : String) (token : ProcessToken)
    (e : ProcessError) (s : Ledger) : Except LedgerError FlowNodeInstance × Ledger :=
  match findInstance s flowNodeInstanceId with
  | none => (Except.error LedgerError.notFound, s)
  | some i =>
    if i.state = FlowNodeInstanceState.running ∨ i.state = FlowNodeInstanceState.suspended then
      let i2 := { i with
        state := FlowNodeInstanceState.error
        token := token
        error := some e
        exitedAt := some s.clock }
      (Except.ok i2,
        { setInstance s flowNodeInstanceId i2 with
            tokens := s.tokens ++ [token]
            clock := s.clock + 1 })
    else (Except.error LedgerError.invalidStateTransition, s)

/-- Modelled from the spec: persistOnTerminate (src/unnamed/part_000 lines
57-69 declares the signature; section 4.1 row four gives the behavior): from
any non-terminal state to terminated, updating the token snapshot and the exit
timestamp; NotFound on an unknown id, InvalidStateTransition from a terminal
state. -/
def persistOnTerminate (flowNode : FlowNode) (flowNodeInstanceId : String) (token : ProcessToken)
    (s : Ledger) : Except LedgerError FlowNodeInstance × Ledger :=
  match findInstance s flowNodeInstanceId with
  | none => (Except.error LedgerError.notFound, s)
  | some i =>
    if i.state.isTerminal then (Except.error LedgerError.invalidStateTransition, s)
    else
      let i2 := { i with
        state := FlowNodeInstanceState.terminated
        token := token
        exitedAt := some s.clock }
      (Except.ok i2,
        { setInstance s flowNodeInstanceId i2 with
            tokens := s.tokens ++ [token]
            clock := s.clock + 1 })

/-- Modelled from the spec: suspend (src/unnamed/part_000 lines 71-81 declares
the signature; section 4.1 row five gives the behavior): from running to
suspended, updating the token snapshot; NotFound on an unknown id,
InvalidStateTransition from any other state. -/
def suspend (flowNodeId : String) (flowNodeInstanceId : String) (token : ProcessToken)
    (s : Ledger) : Except LedgerError FlowNodeInstance × Ledger :=
  match findInstance s flowNodeInstanceId with
  | none => (Except.error LedgerError.notFound, s)
  | some i =>
    if i.state = FlowNodeInstanceState.running then
      let i2 := { i with state := FlowNodeInstanceState.suspended, token := token }
      (Except.ok i2, setInstance s flowNodeInstanceId i2)
    else (Except.error LedgerError.invalidStateTransition, s)

/-- Modelled from the spec: resume (src/unnamed/part_000 lines 83-95 declares
the signature; section 4.1 row six gives the behavior): from suspended back to
running, carrying the externally updated token payload; NotFound on an unknown
id, InvalidStateTransition from any other state. -/
def resume (flowNodeId : String) (flowNodeInstanceId : String) (token : ProcessToken)
    (s : Ledger) : Except LedgerError FlowNodeInstance × Ledger :=
  match findInstance s flowNodeInstanceId with
  | none => (Except.error LedgerError.notFound, s)
  | some i =>
    if i.state = FlowNodeInstanceState.suspended then
      let i2 := { i with state := FlowNodeInstanceState.running, token := token }
      (Except.ok i2, setInstance s flowNodeInstanceId i2)
    else (Except.error LedgerError.invalidStateTransition, s)

/-- Modelled from the spec: pagination of a query result (sections 4.3 and 9):
an offset of records to skip and an optional maximum number of records to
return, the absent limit meaning unbounded. -/
def paginate {α : Type} (xs : List α) (offset : Nat) (limit : Option Nat) : List α :=
  match limit with
  | none => xs.drop offset
  | some l => (xs.drop offset).take l

/-- Modelled from the spec: queryByInstanceId (src/unnamed/part_000 lines
140-148): the single instance with the given id, failing with NotFound when it
is absent. -/
def queryByInstanceId (s : Ledger) (flowNodeInstanceId : String) :
    Except LedgerError FlowNodeInstance :=
  match findInstance s flowNodeInstanceId with
  | none => Except.error LedgerError.notFound
  | some i => Except.ok i

/-- Modelled from the spec: querySpecificFlowNode (src/unnamed/part_000 lines
97-108): the single instance matching the correlation, process model and flow
node ids (the first in the stable entry order when several match), failing
with NotFound when none matches. -/
def querySpecificFlowNode (s : Ledger) (correlationId : String) (processModelId : String)
    (flowNodeId : String) : Except LedgerError FlowNodeInstance :=
  match s.instances.find? (fun i =>
      i.correlationId == correlationId && i.processModelId == processModelId
        && i.flowNodeId == flowNodeId) with
  | none => Except.error LedgerError.notFound
  | some i => Except.ok i

/-- Modelled from the spec: queryFlowNodeInstancesByProcessInstanceId
(src/unnamed/part_000 lines 110-126): the instances of a process instance
filtered to one flow node id, paginated in the stable entry order. -/
def queryFlowNodeInstancesByProcessInstanceId (s : Ledger) (processInstanceId : String)
    (flowNodeId : String) (offset : Nat) (limit : Option Nat) : List FlowNodeInstance :=
  paginate (s.instances.filter (fun i =>
    i.processInstanceId == processInstanceId && i.flowNodeId == flowNodeId)) offset limit

/-- Modelled from the spec: queryByFlowNodeId (src/unnamed/part_000 lines
128-138): all instances of a flow node id, paginated in the stable entry
order. -/
def queryByFlowNodeId (s : Ledger) (flowNodeId : String) (offset : Nat) (limit : Option Nat) :
    List FlowNodeInstance :=
  paginate (s.instances.filter (fun i => i.flowNodeId == flowNodeId)) offset limit

/-- Modelled from the spec: queryByCorrelation (src/unnamed/part_000 lines
150-160): all instances of a correlation, paginated in the stable entry
order. -/
def queryByCorrelation (s : Ledger) (correlationId : String) (offset : Nat) (limit : Option Nat) :
    List FlowNodeInstance :=
  paginate (s.instances.filter (fun i => i.correlationId == correlationId)) offset limit

/-- Modelled from the spec: queryByProcessModel (src/unnamed/part_000 lines
162-172): all instances of a process model, paginated in the stable entry
order. -/
def queryByProcessModel (s : Ledger) (processModelId : String) (offset : Nat)
    (limit : Option Nat) : List FlowNodeInstance :=
  paginate (s.instances.filter (fun i => i.processModelId == processModelId)) offset limit

/-- Modelled from the spec: queryByCorrelationAndProcessModel
(src/unnamed/part_000 lines 174-186): all instances of a correlation and a
process model, paginated in the stable entry order. -/
def queryByCorrelationAndProcessModel (s : Ledger) (correlationId : String)
    (processModelId : String) (offset : Nat) (limit : Option Nat) : List FlowNodeInstance :=
  paginate (s.instances.filter (fun i =>
    i.correlationId == correlationId && i.processModelId == processModelId)) offset limit

/-- Modelled from the spec: queryByProcessInstance (src/unnamed/part_000 lines
188-198): all instances of a process instance, paginated in the stable entry
order. -/
def queryByProcessInstance (s : Ledger) (processInstanceId : String) (offset : Nat)
    (limit : Option Nat) : List FlowNodeInstance :=
  paginate (s.instances.filter (fun i => i.processInstanceId == processInstanceId)) offset limit

/-- Modelled from the spec: queryByState (src/unnamed/part_000 lines 200-209):
all instances in the designated state, paginated in the stable entry order. -/
def queryByState (s : Ledger) (state : FlowNodeInstanceState) (offset : Nat)
    (limit : Option Nat) : List FlowNodeInstance :=
  paginate (s.instances.filter (fun i => i.state == state)) offset limit

/-- Modelled from the spec: an instance is active when its state is running or
suspended (src/unnamed/part_000 lines 211-214 and section 4.2). -/
def isActive (i : FlowNodeInstance) : Bool :=
  i.state == FlowNodeInstanceState.running || i.state == FlowNodeInstanceState.suspended

/-- Modelled from the spec: queryActive (src/unnamed/part_000 lines 211-221):
all active instances, paginated in the stable entry order. -/
def queryActive (s : Ledger) (offset : Nat) (limit : Option Nat) : List FlowNodeInstance :=
  paginate (s.instances.filter isActive) offset limit

/-- Modelled from the spec: queryActiveByProcessInstance (src/unnamed/part_000
lines 223-233): the active instances of a process instance, paginated in the
stable entry order. -/
def queryActiveByProcessInstance (s : Ledger) (processInstanceId : String) (offset : Nat)
    (limit : Option Nat) : List FlowNodeInstance :=
  paginate (s.instances.filter (fun i =>
    isActive i && i.processInstanceId == processInstanceId)) offset limit

/-- Modelled from the spec: queryActiveByCorrelationAndProcessModel
(src/unnamed/part_000 lines 235-252): the active instances of a correlation
and a process model, paginated in the stable entry order. -/
def queryActiveByCorrelationAndProcessModel (s : Ledger) (correlationId : String)
    (processModelId : String) (offset : Nat) (limit : Option Nat) : List FlowNodeInstance :=
  paginate (s.instances.filter (fun i =>
    isActive i && i.correlationId == correlationId
      && i.processModelId == processModelId)) offset limit

/-- Modelled from the spec: querySuspendedByCorrelation (src/unnamed/part_000
lines 254-264): the suspended instances of a correlation, paginated in the
stable entry order. -/
def querySuspendedByCorrelation (s : Ledger) (correlationId : String) (offset : Nat)
    (limit : Option Nat) : List FlowNodeInstance :=
  paginate (s.instances.filter (fun i =>
    i.state == FlowNodeInstanceState.suspended && i.correlationId == correlationId)) offset limit

/-- Modelled from the spec: querySuspendedByProcessModel (src/unnamed/part_000
lines 266-276): the suspended instances of a process model, paginated in the
stable entry order. -/
def querySuspendedByProcessModel (s : Ledger) (processModelId : String) (offset : Nat)
    (limit : Option Nat) : List FlowNodeInstance :=
  paginate (s.instances.filter (fun i =>
    i.state == FlowNodeInstanceState.suspended && i.processModelId == processModelId)) offset limit

/-- Modelled from the spec: querySuspendedByProcessInstance
(src/unnamed/part_000 lines 278-288): the suspended instances of a process
instance, paginated in the stable entry order. -/
def querySuspendedByProcessInstance (s : Ledger) (processInstanceId : String) (offset : Nat)
    (limit : Option Nat) : List FlowNodeInstance :=
  paginate (s.instances.filter (fun i =>
    i.state == FlowNodeInstanceState.suspended
      && i.processInstanceId == processInstanceId)) offset limit

/-- Modelled from the spec: queryProcessTokensByProcessInstanceId
(src/unnamed/part_000 lines 290-300): all token snapshots of a process
instance, paginated. -/
def queryProcessTokensByProcessInstanceId (s : Ledger) (processInstanceId : String)
    (offset : Nat) (limit : Option Nat) : List ProcessToken :=
  paginate (s.tokens.filter (fun t => t.processInstanceId == processInstanceId)) offset limit

/-- Modelled from the spec: deleteByProcessModelId (src/unnamed/part_000 lines
302-309 and section 4.4): removes every FlowNodeInstance and every ProcessToken
whose processModelId matches, leaves everything else intact, and never fails. -/
def deleteByProcessModelId (processModelId : String) (s : Ledger) : Ledger :=
  { instances := s.instances.filter (fun i => i.processModelId != processModelId)
    tokens := s.tokens.filter (fun t => t.processModelId != processModelId)
    clock := s.clock }

/-- Modelled from the spec: one lifecycle transition request aimed at a fixed
flowNodeInstanceId (section 4.1), carrying the arguments of the corresponding
service call. -/
inductive LifecycleOp
  | enter (flowNode : FlowNode) (token : ProcessToken) (previous : Option String)
  | finish (flowNode : FlowNode) (token : ProcessToken)
  | fault (flowNode : FlowNode) (token : ProcessToken) (e : ProcessError)
  | terminate (flowNode : FlowNode) (token : ProcessToken)
  | pause (flowNodeId : String) (token : ProcessToken)
  | res (flowNodeId : String) (token : ProcessToken)
  deriving DecidableEq

/-- Modelled from the spec: the target state of each transition, read off the
section 4.1 table. -/
def LifecycleOp.target : LifecycleOp → FlowNodeInstanceState
  | .enter _ _ _ => FlowNodeInstanceState.running
  | .finish _ _ => FlowNodeInstanceState.finished
  | .fault _ _ _ => FlowNodeInstanceState.error
  | .terminate _ _ => FlowNodeInstanceState.terminated
  | .pause _ _ => FlowNodeInstanceState.suspended
  | .res _ _ => FlowNodeInstanceState.running

/-- Modelled from the spec: dispatch one lifecycle transition for the given
flowNodeInstanceId to the corresponding service operation. -/
def applyOp (s : Ledger) (flowNodeInstanceId : String) :
    LifecycleOp → Except LedgerError FlowNodeInstance × Ledger
  | .enter fn tok prev => persistOnEnter fn flowNodeInstanceId tok prev s
  | .finish fn tok => persistOnExit fn flowNodeInstanceId tok s
  | .fault fn tok e => persistOnError fn flowNodeInstanceId tok e s
  | .terminate fn tok => persistOnTerminate fn flowNodeInstanceId tok s
  | .pause fnId tok => suspend fnId flowNodeInstanceId tok s
  | .res fnId tok => resume fnId flowNodeInstanceId tok s

/-- Modelled from the spec: apply a sequence of lifecycle transitions to one
flowNodeInstanceId, stopping at the first failure; the sequence respects the
section 4.1 table exactly when every step succeeds. -/
def applySeq (s : Ledger) (flowNodeInstanceId : String) :
    List LifecycleOp → Except LedgerError Ledger
  | [] => Except.ok s
  | op :: rest =>
    match applyOp s flowNodeInstanceId op with
    | (Except.ok _, s1) => applySeq s1 flowNodeInstanceId rest
    | (Except.error e, _) => Except.error e

/-! Concrete fixtures used to exercise the model on small inputs. -/

/-- A sample token for process instance pi1 of process model pm1 in
correlation co1. -/
def tokA : ProcessToken :=
  { processInstanceId := "pi1", processModelId := "pm1", correlationId := "co1", payload := "p0" }

/-- A second token for the same process instance, carrying an updated
payload. -/
def tokB : ProcessToken :=
  { processInstanceId := "pi1", processModelId := "pm1", correlationId := "co1", payload := "p1" }

/-- A token belonging to a different process model pm2. -/
def tokC : ProcessToken :=
  { processInstanceId := "pi2", processModelId := "pm2", correlationId := "co2", payload := "q0" }

/-- A sample start-event flow node. -/
def fnA : FlowNode := { id := "fn1", bpmnType := BpmnType.startEvent, name := "Start" }

/-- The instance record created by entering fnA with tokA as fni1 on the empty
ledger. -/
def instA : FlowNodeInstance :=
  { flowNodeInstanceId := "fni1"
    flowNodeId := "fn1"
    processInstanceId := "pi1"
    processModelId := "pm1"
    correlationId := "co1"
    previousFlowNodeInstanceId := none
    state := FlowNodeInstanceState.running
    token := tokA
    error := none
    enteredAt := 0
    exitedAt := none }

/-- A ledger holding the single running instance fni1. -/
def runningLedger : Ledger := (persistOnEnter fnA "fni1" tokA none emptyLedger).2

/-- A ledger holding the single suspended instance fni1. -/
def suspendedLedger : Ledger := (suspend "fn1" "fni1" tokA runningLedger).2

/-- A ledger holding the single finished instance fni1. -/
def finishedLedger : Ledger := (persistOnExit fnA "fni1" tokA runningLedger).2

/-- A ledger holding two distinct instances fni1 and fni2 of the same flow node
fn1 in the same correlation co1 and process model pm1. -/
def twoMatchLedger : Ledger := (persistOnEnter fnA "fni2" tokB none runningLedger).2

/-! Helper lemmas about find? over the Instance Store. -/

/-- Appending to a list in which find? fails continues the search in the
appended part. -/
theorem find?_append_none {α : Type} (l1 l2 : List α) (p : α → Bool)
    (h : l1.find? p = none) : (l1 ++ l2).find? p = l2.find? p := by
  rw [List.find?_append, h, Option.none_or]

/-- Replacing the snapshot found by findInstance makes findInstance return the
new snapshot. -/
theorem find?_map_update (l : List FlowNodeInstance) (fid : String) (i2 : FlowNodeInstance)
    (hid : (i2.flowNodeInstanceId == fid) = true)
    (h : (l.find? (fun j => j.flowNodeInstanceId == fid)).isSome) :
    ((l.map (fun j => if j.flowNodeInstanceId == fid then i2 else j)).find?
      (fun j => j.flowNodeInstanceId == fid)) = some i2 := by
  induction l with
  | nil => simp [List.find?] at h
  | cons a t ih =>
    cases hp : (a.flowNodeInstanceId == fid) with
    | true => simp [List.find?, hp, hid]
    | false =>
      have hna : ¬ ((a.flowNodeInstanceId == fid) = true) := by simp [hp]
      rw [List.map_cons, if_neg hna]
      simp only [List.find?, hp] at h ⊢
      exact ih h

/-- findInstance after setInstance with a snapshot keeping the looked-up id
returns the new snapshot, provided the id was present. -/
theorem findInstance_setInstance (s : Ledger) (fid : String) (i2 : FlowNodeInstance)
    (hid : (i2.flowNodeInstanceId == fid) = true)
    (h : (findInstance s fid).isSome) :
    findInstance (setInstance s fid i2) fid = some i2 := by
  unfold findInstance setInstance at *
  exact find?_map_update s.instances fid i2 hid h

/-- Splitting a paginated read at N: the page at offset 0 with limit N followed
by the page at offset N with limit M is the page at offset 0 with limit
N + M. -/
theorem paginate_split {α : Type} (xs : List α) (N M : Nat) :
    paginate xs 0 (some N) ++ paginate xs N (some M) = paginate xs 0 (some (N + M)) := by
  simp only [paginate, List.drop_zero]
  exact (List.take_add xs N M).symm

/-- C6: for every ledger snapshot, queryActive returns exactly the union of
queryByState running and queryByState suspended evaluated over the same
snapshot. -/
theorem queryActive_eq_union (s : Ledger) (x : FlowNodeInstance) :
    x ∈ queryActive s 0 none ↔
      (x ∈ queryByState s FlowNodeInstanceState.running 0 none ∨
        x ∈ queryByState s FlowNodeInstanceState.suspended 0 none) := by
  simp only [queryActive, queryByState, paginate, List.drop_zero, List.mem_filter, isActive]
  simp only [Bool.or_eq_true, beq_iff_eq]
  tauto

/-- C7: for every list-returning query operation over an unchanged ledger and
all naturals N and M, the result at offset 0 with limit N followed by the
result at offset N with limit M equals the result at offset 0 with limit
N + M. -/
theorem pagination_split_all (s : Ledger) (a b : String) (st : FlowNodeInstanceState)
    (N M : Nat) :
    (queryFlowNodeInstancesByProcessInstanceId s a b 0 (some N)
        ++ queryFlowNodeInstancesByProcessInstanceId s a b N (some M)
      = queryFlowNodeInstancesByProcessInstanceId s a b 0 (some (N + M)))
    ∧ (queryByFlowNodeId s a 0 (some N) ++ queryByFlowNodeId s a N (some M)
      = queryByFlowNodeId s a 0 (some (N + M)))
    ∧ (queryByCorrelation s a 0 (some N) ++ queryByCorrelation s a N (some M)
      = queryByCorrelation s a 0 (some (N + M)))
    ∧ (queryByProcessModel s a 0 (some N) ++ queryByProcessModel s a N (some M)
      = queryByProcessModel s a 0 (some (N + M)))
    ∧ (queryByCorrelationAndProcessModel s a b 0 (some N)
        ++ queryByCorrelationAndProcessModel s a b N (some M)
      = queryByCorrelationAndProcessModel s a b 0 (some (N + M)))
    ∧ (queryByProcessInstance s a 0 (some N) ++ queryByProcessInstance s a N (some M)
      = queryByProcessInstance s a 0 (some (N + M)))
    ∧ (queryByState s st 0 (some N) ++ queryByState s st N (some M)
      = queryByState s st 0 (some (N + M)))
    ∧ (queryActive s 0 (some N) ++ queryActive s N (some M)
      = queryActive s 0 (some (N + M)))
    ∧ (queryActiveByProcessInstance s a 0 (some N) ++ queryActiveByProcessInstance s a N (some M)
      = queryActiveByProcessInstance s a 0 (some (N + M)))
    ∧ (queryActiveByCorrelationAndProcessModel s a b 0 (some N)
        ++ queryActiveByCorrelationAndProcessModel s a b N (some M)
      = queryActiveByCorrelationAndProcessModel s a b 0 (some (N + M)))
    ∧ (querySuspendedByCorrelation s a 0 (some N) ++ querySuspendedByCorrelation s a N (some M)
      = querySuspendedByCorrelation s a 0 (some (N + M)))
    ∧ (querySuspendedByProcessModel s a 0 (some N) ++ querySuspendedByProcessModel s a N (some M)
      = querySuspendedByProcessModel s a 0 (some (N + M)))
    ∧ (querySuspendedByProcessInstance s a 0 (some N)
        ++ querySuspendedByProcessInstance s a N (some M)
      = querySuspendedByProcessInstance s a 0 (some (N + M)))
    ∧ (queryProcessTokensByProcessInstanceId s a 0 (some N)
        ++ queryProcessTokensByProcessInstanceId s a N (some M)
      = queryProcessTokensByProcessInstanceId s a 0 (some (N + M))) := by
  refine ⟨?_, ?_, ?_, ?_, ?_, ?_, ?_, ?_, ?_, ?_, ?_, ?_, ?_, ?_⟩ <;>
    exact paginate_split _ N M

/-- C8: deleteByProcessModelId P removes every instance and every token whose
processModelId equals P, leaves every record with a different processModelId
unchanged, is idempotent, and is a no-op when nothing matches. -/
theorem deleteByProcessModelId_frame (s : Ledger) (P : String) :
    (∀ i ∈ (deleteByProcessModelId P s).instances, i.processModelId ≠ P)
    ∧ (∀ t ∈ (deleteByProcessModelId P s).tokens, t.processModelId ≠ P)
    ∧ (∀ i, i ∈ (deleteByProcessModelId P s).instances ↔
        (i ∈ s.instances ∧ i.processModelId ≠ P))
    ∧ (∀ t, t ∈ (deleteByProcessModelId P s).tokens ↔
        (t ∈ s.tokens ∧ t.processModelId ≠ P))
    ∧ deleteByProcessModelId P (deleteByProcessModelId P s) = deleteByProcessModelId P s
    ∧ ((∀ i ∈ s.instances, i.processModelId ≠ P) →
        (∀ t ∈ s.tokens, t.processModelId ≠ P) →
        deleteByProcessModelId P s = s) := by
  refine ⟨?_, ?_, ?_, ?_, ?_, ?_⟩
  · intro i hi
    simp [deleteByProcessModelId, List.mem_filter] at hi
    exact hi.2
  · intro t ht
    simp [deleteByProcessModelId, List.mem_filter] at ht
    exact ht.2
  · intro i
    simp [deleteByProcessModelId, List.mem_filter]
  · intro t
    simp [deleteByProcessModelId, List.mem_filter]
  · simp [deleteByProcessModelId, List.filter_filter]
  · intro h1 h2
    cases s with
    | mk ins toks ck =>
      simp only [deleteByProcessModelId, Ledger.mk.injEq]
      refine ⟨List.filter_eq_self.mpr ?_, List.filter_eq_self.mpr ?_, trivial⟩
      · intro i hi
        simpa using h1 i hi
      · intro t ht
        simpa using h2 t ht

/-- Witness for C8: deleting a process model with no matching records on the
empty ledger is a no-op. -/
theorem deleteByProcessModelId_frame_example :
    deleteByProcessModelId "pmX" emptyLedger = emptyLedger :=
  (deleteByProcessModelId_frame emptyLedger "pmX").2.2.2.2.2
    (by intro i hi; simp [emptyLedger] at hi)
    (by intro t ht; simp [emptyLedger] at ht)

/-- C10: querySpecificFlowNode is deterministic: on a fixed ledger two calls
with the same correlation, process model and flow node ids return the same
single instance; every returned instance matches the triple; and whenever at
least one stored instance matches (in particular when several do), the call
returns exactly one record. -/
theorem querySpecificFlowNode_deterministic (s : Ledger) (co pm fn : String) :
    (∀ r1 r2, querySpecificFlowNode s co pm fn = Except.ok r1 →
        querySpecificFlowNode s co pm fn = Except.ok r2 → r1 = r2)
    ∧ (∀ r, querySpecificFlowNode s co pm fn = Except.ok r →
        r.correlationId = co ∧ r.processModelId = pm ∧ r.flowNodeId = fn)
    ∧ ((∃ i ∈ s.instances,
          i.correlationId = co ∧ i.processModelId = pm ∧ i.flowNodeId = fn) →
        ∃ r, querySpecificFlowNode s co pm fn = Except.ok r) := by
  unfold querySpecificFlowNode
  cases hf : s.instances.find? (fun i =>
      i.correlationId == co && i.processModelId == pm && i.flowNodeId == fn) with
  | none =>
    refine ⟨?_, ?_, ?_⟩
    · intro r1 r2 h1 h2
      exact Except.noConfusion h1
    · intro r h1
      exact Except.noConfusion h1
    · rintro ⟨i, hi, hco, hpm, hfn⟩
      have hnone := List.find?_eq_none.mp hf i hi
      simp [hco, hpm, hfn] at hnone
  | some i =>
    refine ⟨?_, ?_, ?_⟩
    · intro r1 r2 h1 h2
      injection h1 with e1
      injection h2 with e2
      rw [← e1, ← e2]
    · intro r h1
      injection h1 with e1
      have hp := List.find?_some hf
      simp only [Bool.and_eq_true, beq_iff_eq] at hp
      rw [← e1]
      exact ⟨hp.1.1, hp.1.2, hp.2⟩
    · intro _
      exact ⟨i, rfl⟩

/-- Witness for C10: on a ledger holding two instances matching the triple
co1, pm1, fn1, querySpecificFlowNode still returns exactly one record. -/
theorem querySpecificFlowNode_deterministic_example :
    ∃ r, querySpecificFlowNode twoMatchLedger "co1" "pm1" "fn1" = Except.ok r :=
  (querySpecificFlowNode_deterministic twoMatchLedger "co1" "pm1" "fn1").2.2
    ⟨instA, by decide, by decide, by decide, by decide⟩

/-- A sample error payload. -/
def errA : ProcessError := { kind := "Fault", message := "x" }

/-- The snapshot of fni1 after it was suspended. -/
def instSus : FlowNodeInstance := { instA with state := FlowNodeInstanceState.suspended }

/-- The snapshot of fni1 after it finished. -/
def instFin : FlowNodeInstance :=
  { instA with state := FlowNodeInstanceState.finished, exitedAt := some 1 }

/-- C2 counterexample: resume on a flowNodeInstanceId that was never created
fails with NotFound, not with InvalidStateTransition. -/
theorem resume_absent_fails_notFound :
    findInstance emptyLedger "ghost" = none
    ∧ (resume "fn1" "ghost" tokA emptyLedger).1 = Except.error LedgerError.notFound
    ∧ (resume "fn1" "ghost" tokA emptyLedger).1
        ≠ Except.error LedgerError.invalidStateTransition := by
  refine ⟨rfl, rfl, ?_⟩
  decide

/-- C2 (amended): resume on an existing instance whose current state is not
suspended fails with InvalidStateTransition and leaves the ledger, hence the
stored state of the instance, unchanged; on an id that was never created it
instead fails with NotFound. -/
theorem resume_nonSuspended_invalid (s : Ledger) (fnId fniId : String) (tok : ProcessToken)
    (i : FlowNodeInstance) (hfind : findInstance s fniId = some i)
    (hns : i.state ≠ FlowNodeInstanceState.suspended) :
    (resume fnId fniId tok s).1 = Except.error LedgerError.invalidStateTransition
    ∧ (resume fnId fniId tok s).2 = s := by
  simp only [resume, hfind]
  rw [if_neg hns]
  exact ⟨rfl, rfl⟩

/-- Witness for C2: resume on the running instance fni1 fails with
InvalidStateTransition and leaves the ledger unchanged. -/
theorem resume_nonSuspended_invalid_example :
    (resume "fn1" "fni1" tokA runningLedger).1 = Except.error LedgerError.invalidStateTransition
    ∧ (resume "fn1" "fni1" tokA runningLedger).2 = runningLedger :=
  resume_nonSuspended_invalid runningLedger "fn1" "fni1" tokA instA (by decide) (by decide)

/-- C3: terminal states are absorbing: on an instance whose state is finished,
error or terminated, none of persistOnExit, persistOnError,
persistOnTerminate, suspend or resume succeeds, each fails with
InvalidStateTransition and leaves the ledger unchanged. -/
theorem terminal_absorbing (s : Ledger) (fniId fnId : String) (fn : FlowNode)
    (tok : ProcessToken) (e : ProcessError) (i : FlowNodeInstance)
    (hfind : findInstance s fniId = some i)
    (hterm : i.state.isTerminal = true) :
    ((persistOnExit fn fniId tok s).1 = Except.error LedgerError.invalidStateTransition
      ∧ (persistOnExit fn fniId tok s).2 = s)
    ∧ ((persistOnError fn fniId tok e s).1 = Except.error LedgerError.invalidStateTransition
      ∧ (persistOnError fn fniId tok e s).2 = s)
    ∧ ((persistOnTerminate fn fniId tok s).1 = Except.error LedgerError.invalidStateTransition
      ∧ (persistOnTerminate fn fniId tok s).2 = s)
    ∧ ((suspend fnId fniId tok s).1 = Except.error LedgerError.invalidStateTransition
      ∧ (suspend fnId fniId tok s).2 = s)
    ∧ ((resume fnId fniId tok s).1 = Except.error LedgerError.invalidStateTransition
      ∧ (resume fnId fniId tok s).2 = s) := by
  have hnr : i.state ≠ FlowNodeInstanceState.running := by
    intro hx
    rw [hx] at hterm
    simp [FlowNodeInstanceState.isTerminal] at hterm
  have hnsus : i.state ≠ FlowNodeInstanceState.suspended := by
    intro hx
    rw [hx] at hterm
    simp [FlowNodeInstanceState.isTerminal] at hterm
  have hno : ¬ (i.state = FlowNodeInstanceState.running
      ∨ i.state = FlowNodeInstanceState.suspended) := fun hx => hx.elim hnr hnsus
  refine ⟨?_, ?_, ?_, ?_, ?_⟩
  · simp only [persistOnExit, hfind]
    rw [if_neg hno]
    exact ⟨rfl, rfl⟩
  · simp only [persistOnError, hfind]
    rw [if_neg hno]
    exact ⟨rfl, rfl⟩
  · simp only [persistOnTerminate, hfind]
    rw [if_pos hterm]
    exact ⟨rfl, rfl⟩
  · simp only [suspend, hfind]
    rw [if_neg hnr]
    exact ⟨rfl, rfl⟩
  · simp only [resume, hfind]
    rw [if_neg hnsus]
    exact ⟨rfl, rfl⟩

/-- Witness for C3: on the finished instance fni1 every further transition
fails with InvalidStateTransition and leaves the ledger unchanged. -/
theorem terminal_absorbing_example :
    ((persistOnExit fnA "fni1" tokB finishedLedger).1
        = Except.error LedgerError.invalidStateTransition
      ∧ (persistOnExit fnA "fni1" tokB finishedLedger).2 = finishedLedger)
    ∧ ((persistOnError fnA "fni1" tokB errA finishedLedger).1
        = Except.error LedgerError.invalidStateTransition
      ∧ (persistOnError fnA "fni1" tokB errA finishedLedger).2 = finishedLedger)
    ∧ ((persistOnTerminate fnA "fni1" tokB finishedLedger).1
        = Except.error LedgerError.invalidStateTransition
      ∧ (persistOnTerminate fnA "fni1" tokB finishedLedger).2 = finishedLedger)
    ∧ ((suspend "fn1" "fni1" tokB finishedLedger).1
        = Except.error LedgerError.invalidStateTransition
      ∧ (suspend "fn1" "fni1" tokB finishedLedger).2 = finishedLedger)
    ∧ ((resume "fn1" "fni1" tokB finishedLedger).1
        = Except.error LedgerError.invalidStateTransition
      ∧ (resume "fn1" "fni1" tokB finishedLedger).2 = finishedLedger) :=
  terminal_absorbing finishedLedger "fni1" "fn1" fnA tokB errA instFin
    (by decide) (by decide)

/-- C4: persistOnExit on an existing instance succeeds exactly when the
current state is running or suspended, and on success moves the instance to
state finished and stores that record. -/
theorem persistOnExit_iff_active (s : Ledger) (fniId : String) (fn : FlowNode)
    (tok : ProcessToken) (i : FlowNodeInstance)
    (hfind : findInstance s fniId = some i) :
    ((∃ r, (persistOnExit fn fniId tok s).1 = Except.ok r) ↔
      (i.state = FlowNodeInstanceState.running ∨ i.state = FlowNodeInstanceState.suspended))
    ∧ (∀ r, (persistOnExit fn fniId tok s).1 = Except.ok r →
        r.state = FlowNodeInstanceState.finished
        ∧ findInstance (persistOnExit fn fniId tok s).2 fniId = some r) := by
  have hfind2 : s.instances.find? (fun j => j.flowNodeInstanceId == fniId) = some i := hfind
  have hid0 := List.find?_some hfind2
  have hid : (i.flowNodeInstanceId == fniId) = true := hid0
  constructor
  · constructor
    · rintro ⟨r, hr⟩
      by_contra hno
      simp only [persistOnExit, hfind] at hr
      rw [if_neg hno] at hr
      exact Except.noConfusion hr
    · intro hact
      simp only [persistOnExit, hfind]
      rw [if_pos hact]
      exact ⟨_, rfl⟩
  · intro r hr
    simp only [persistOnExit, hfind] at hr ⊢
    by_cases hact : (i.state = FlowNodeInstanceState.running
        ∨ i.state = FlowNodeInstanceState.suspended)
    · rw [if_pos hact] at hr ⊢
      injection hr with e1
      refine ⟨?_, ?_⟩
      · rw [← e1]
      · rw [← e1]
        exact findInstance_setInstance s fniId _ hid (by rw [hfind]; rfl)
    · rw [if_neg hact] at hr
      exact Except.noConfusion hr

/-- Witness for C4: on the running instance fni1, persistOnExit succeeds and
stores the finished record. -/
theorem persistOnExit_iff_active_example :
    ((∃ r, (persistOnExit fnA "fni1" tokA runningLedger).1 = Except.ok r) ↔
      (instA.state = FlowNodeInstanceState.running
        ∨ instA.state = FlowNodeInstanceState.suspended))
    ∧ (∀ r, (persistOnExit fnA "fni1" tokA runningLedger).1 = Except.ok r →
        r.state = FlowNodeInstanceState.finished
        ∧ findInstance (persistOnExit fnA "fni1" tokA runningLedger).2 "fni1" = some r) :=
  persistOnExit_iff_active runningLedger "fni1" fnA tokA instA (by decide)

/-- C9 counterexample: persistOnEnter is a lifecycle transition that is called
with a flowNodeInstanceId absent from the ledger and succeeds, creating the
instance, instead of failing with NotFound. -/
theorem persistOnEnter_absent_creates :
    findInstance emptyLedger "fni1" = none
    ∧ (persistOnEnter fnA "fni1" tokA none emptyLedger).1 = Except.ok instA
    ∧ (persistOnEnter fnA "fni1" tokA none emptyLedger).1
        ≠ Except.error LedgerError.notFound := by
  refine ⟨rfl, by decide, by decide⟩

/-- C9 (amended): every operation other than persistOnEnter called with a
flowNodeInstanceId absent from the ledger fails with NotFound and leaves the
ledger unchanged — in particular queryByInstanceId fails with NotFound rather
than returning a result — while persistOnEnter on an absent id succeeds,
creating the instance. -/
theorem absent_id_notFound (s : Ledger) (fniId fnId : String) (fn : FlowNode)
    (tok : ProcessToken) (e : ProcessError) (prev : Option String)
    (habs : findInstance s fniId = none) :
    queryByInstanceId s fniId = Except.error LedgerError.notFound
    ∧ ((persistOnExit fn fniId tok s).1 = Except.error LedgerError.notFound
      ∧ (persistOnExit fn fniId tok s).2 = s)
    ∧ ((persistOnError fn fniId tok e s).1 = Except.error LedgerError.notFound
      ∧ (persistOnError fn fniId tok e s).2 = s)
    ∧ ((persistOnTerminate fn fniId tok s).1 = Except.error LedgerError.notFound
      ∧ (persistOnTerminate fn fniId tok s).2 = s)
    ∧ ((suspend fnId fniId tok s).1 = Except.error LedgerError.notFound
      ∧ (suspend fnId fniId tok s).2 = s)
    ∧ ((resume fnId fniId tok s).1 = Except.error LedgerError.notFound
      ∧ (resume fnId fniId tok s).2 = s)
    ∧ (∃ r, (persistOnEnter fn fniId tok prev s).1 = Except.ok r) := by
  refine ⟨?_, ?_, ?_, ?_, ?_, ?_, ?_⟩
  · simp only [queryByInstanceId, habs]
  · simp [persistOnExit, habs]
  · simp [persistOnError, habs]
  · simp [persistOnTerminate, habs]
  · simp [suspend, habs]
  · simp [resume, habs]
  · simp only [persistOnEnter, habs]
    exact ⟨_, rfl⟩

/-- Witness for C9: on the empty ledger with the unknown id ghost, every
non-creating operation fails with NotFound and persistOnEnter succeeds. -/
theorem absent_id_notFound_example :
    queryByInstanceId emptyLedger "ghost" = Except.error LedgerError.notFound
    ∧ ((persistOnExit fnA "ghost" tokA emptyLedger).1 = Except.error LedgerError.notFound
      ∧ (persistOnExit fnA "ghost" tokA emptyLedger).2 = emptyLedger)
    ∧ ((persistOnError fnA "ghost" tokA errA emptyLedger).1 = Except.error LedgerError.notFound
      ∧ (persistOnError fnA "ghost" tokA errA emptyLedger).2 = emptyLedger)
    ∧ ((persistOnTerminate fnA "ghost" tokA emptyLedger).1 = Except.error LedgerError.notFound
      ∧ (persistOnTerminate fnA "ghost" tokA emptyLedger).2 = emptyLedger)
    ∧ ((suspend "fn1" "ghost" tokA emptyLedger).1 = Except.error LedgerError.notFound
      ∧ (suspend "fn1" "ghost" tokA emptyLedger).2 = emptyLedger)
    ∧ ((resume "fn1" "ghost" tokA emptyLedger).1 = Except.error LedgerError.notFound
      ∧ (resume "fn1" "ghost" tokA emptyLedger).2 = emptyLedger)
    ∧ (∃ r, (persistOnEnter fnA "ghost" tokA none emptyLedger).1 = Except.ok r) :=
  absent_id_notFound emptyLedger "ghost" "fn1" fnA tokA errA none (by decide)

/-- C5 counterexample: on a ledger whose instance fni1 is suspended,
persistOnExit succeeds directly and yields state finished, with no resume
first: the direct suspended to finished transition exists. -/
theorem suspended_exit_direct :
    (Option.map FlowNodeInstance.state (findInstance suspendedLedger "fni1")
      = some FlowNodeInstanceState.suspended)
    ∧ (Except.map FlowNodeInstance.state (persistOnExit fnA "fni1" tokB suspendedLedger).1
      = Except.ok FlowNodeInstanceState.finished) :=
  ⟨rfl, rfl⟩

/-- C5 (amended): for an instance in state suspended, resume is the unique
lifecycle transition whose result is state running, and it succeeds; however
finished is directly reachable from suspended, since persistOnExit applied to
the suspended instance succeeds with state finished without a prior resume. -/
theorem suspended_resume_unique (s : Ledger) (fniId fnId : String) (fn : FlowNode)
    (tok : ProcessToken) (i : FlowNodeInstance)
    (hfind : findInstance s fniId = some i)
    (hsus : i.state = FlowNodeInstanceState.suspended) :
    (Except.map FlowNodeInstance.state (resume fnId fniId tok s).1
      = Except.ok FlowNodeInstanceState.running)
    ∧ (Except.map FlowNodeInstance.state (persistOnExit fn fniId tok s).1
      = Except.ok FlowNodeInstanceState.finished)
    ∧ (∀ op r, (applyOp s fniId op).1 = Except.ok r →
        r.state = FlowNodeInstanceState.running →
        ∃ fnId2 tok2, op = LifecycleOp.res fnId2 tok2) := by
  refine ⟨?_, ?_, ?_⟩
  · simp only [resume, hfind]
    rw [if_pos hsus]
    rfl
  · simp only [persistOnExit, hfind]
    rw [if_pos (Or.inr hsus)]
    rfl
  · intro op r hok hrun
    cases op with
    | enter fn2 tok2 prev =>
      simp only [applyOp, persistOnEnter, hfind] at hok
      exact Except.noConfusion hok
    | finish fn2 tok2 =>
      simp only [applyOp, persistOnExit, hfind] at hok
      rw [if_pos (Or.inr hsus)] at hok
      injection hok with e1
      rw [← e1] at hrun
      exact FlowNodeInstanceState.noConfusion hrun
    | fault fn2 tok2 e2 =>
      simp only [applyOp, persistOnError, hfind] at hok
      rw [if_pos (Or.inr hsus)] at hok
      injection hok with e1
      rw [← e1] at hrun
      exact FlowNodeInstanceState.noConfusion hrun
    | terminate fn2 tok2 =>
      simp only [applyOp, persistOnTerminate, hfind] at hok
      rw [hsus] at hok
      rw [if_neg (by decide)] at hok
      injection hok with e1
      rw [← e1] at hrun
      exact FlowNodeInstanceState.noConfusion hrun
    | pause fnId2 tok2 =>
      simp only [applyOp, suspend, hfind] at hok
      rw [if_neg (fun hx => by rw [hsus] at hx; exact FlowNodeInstanceState.noConfusion hx)]
        at hok
      exact Except.noConfusion hok
    | res fnId2 tok2 =>
      exact ⟨fnId2, tok2, rfl⟩

/-- Witness for C5: on the suspended instance fni1, resume yields running,
persistOnExit yields finished directly, and only resume can yield running. -/
theorem suspended_resume_unique_example :
    (Except.map FlowNodeInstance.state (resume "fn1" "fni1" tokB suspendedLedger).1
      = Except.ok FlowNodeInstanceState.running)
    ∧ (Except.map FlowNodeInstance.state (persistOnExit fnA "fni1" tokB suspendedLedger).1
      = Except.ok FlowNodeInstanceState.finished)
    ∧ (∀ op r, (applyOp suspendedLedger "fni1" op).1 = Except.ok r →
        r.state = FlowNodeInstanceState.running →
        ∃ fnId2 tok2, op = LifecycleOp.res fnId2 tok2) :=
  suspended_resume_unique suspendedLedger "fni1" "fn1" fnA tokB instSus
    (by decide) (by decide)

/-- One successful lifecycle transition stores a record whose state is the
target state of the transition, found again under the same id. -/
theorem applyOp_ok (s : Ledger) (fniId : String) (op : LifecycleOp) (r : FlowNodeInstance)
    (s2 : Ledger) (h : applyOp s fniId op = (Except.ok r, s2)) :
    findInstance s2 fniId = some r ∧ r.state = op.target := by
  cases op with
  | enter fn tok prev =>
    simp only [applyOp, persistOnEnter] at h
    cases hf : findInstance s fniId with
    | some j =>
      simp [hf] at h
    | none =>
      simp only [hf] at h
      rw [Prod.mk.injEq] at h
      obtain ⟨h1, h2⟩ := h
      injection h1 with e1
      have hf2 : s.instances.find? (fun j => j.flowNodeInstanceId == fniId) = none := hf
      constructor
      · rw [← h2, ← e1]
        unfold findInstance
        rw [find?_append_none _ _ _ hf2]
        simp [List.find?]
      · rw [← e1]
        rfl
  | finish fn tok =>
    simp only [applyOp, persistOnExit] at h
    cases hf : findInstance s fniId with
    | none =>
      simp [hf] at h
    | some i =>
      simp only [hf] at h
      have hid0 := List.find?_some (hf : s.instances.find? _ = some i)
      have hid : (i.flowNodeInstanceId == fniId) = true := hid0
      by_cases hact : (i.state = FlowNodeInstanceState.running
          ∨ i.state = FlowNodeInstanceState.suspended)
      · rw [if_pos hact, Prod.mk.injEq] at h
        obtain ⟨h1, h2⟩ := h
        injection h1 with e1
        constructor
        · rw [← h2, ← e1]
          exact findInstance_setInstance s fniId _ hid (by rw [hf]; rfl)
        · rw [← e1]
          rfl
      · rw [if_neg hact] at h
        simp at h
  | fault fn tok e =>
    simp only [applyOp, persistOnError] at h
    cases hf : findInstance s fniId with
    | none =>
      simp [hf] at h
    | some i =>
      simp only [hf] at h
      have hid0 := List.find?_some (hf : s.instances.find? _ = some i)
      have hid : (i.flowNodeInstanceId == fniId) = true := hid0
      by_cases hact : (i.state = FlowNodeInstanceState.running
          ∨ i.state = FlowNodeInstanceState.suspended)
      · rw [if_pos hact, Prod.mk.injEq] at h
        obtain ⟨h1, h2⟩ := h
        injection h1 with e1
        constructor
        · rw [← h2, ← e1]
          exact findInstance_setInstance s fniId _ hid (by rw [hf]; rfl)
        · rw [← e1]
          rfl
      · rw [if_neg hact] at h
        simp at h
  | terminate fn tok =>
    simp only [applyOp, persistOnTerminate] at h
    cases hf : findInstance s fniId with
    | none =>
      simp [hf] at h
    | some i =>
      simp only [hf] at h
      have hid0 := List.find?_some (hf : s.instances.find? _ = some i)
      have hid : (i.flowNodeInstanceId == fniId) = true := hid0
      by_cases hterm : i.state.isTerminal = true
      · rw [if_pos hterm] at h
        simp at h
      · rw [if_neg hterm, Prod.mk.injEq] at h
        obtain ⟨h1, h2⟩ := h
        injection h1 with e1
        constructor
        · rw [← h2, ← e1]
          exact findInstance_setInstance s fniId _ hid (by rw [hf]; rfl)
        · rw [← e1]
          rfl
  | pause fnId tok =>
    simp only [applyOp, suspend] at h
    cases hf : findInstance s fniId with
    | none =>
      simp [hf] at h
    | some i =>
      simp only [hf] at h
      have hid0 := List.find?_some (hf : s.instances.find? _ = some i)
      have hid : (i.flowNodeInstanceId == fniId) = true := hid0
      by_cases hrun : i.state = FlowNodeInstanceState.running
      · rw [if_pos hrun, Prod.mk.injEq] at h
        obtain ⟨h1, h2⟩ := h
        injection h1 with e1
        constructor
        · rw [← h2, ← e1]
          exact findInstance_setInstance s fniId _ hid (by rw [hf]; rfl)
        · rw [← e1]
          rfl
      · rw [if_neg hrun] at h
        simp at h
  | res fnId tok =>
    simp only [applyOp, resume] at h
    cases hf : findInstance s fniId with
    | none =>
      simp [hf] at h
    | some i =>
      simp only [hf] at h
      have hid0 := List.find?_some (hf : s.instances.find? _ = some i)
      have hid : (i.flowNodeInstanceId == fniId) = true := hid0
      by_cases hsus : i.state = FlowNodeInstanceState.suspended
      · rw [if_pos hsus, Prod.mk.injEq] at h
        obtain ⟨h1, h2⟩ := h
        injection h1 with e1
        constructor
        · rw [← h2, ← e1]
          exact findInstance_setInstance s fniId _ hid (by rw [hf]; rfl)
        · rw [← e1]
          rfl
      · rw [if_neg hsus] at h
        simp at h

/-- After a fully successful sequence of lifecycle transitions on one id, the
stored record has the target state of the last transition. -/
theorem applySeq_ok_last (fniId : String) (ops : List LifecycleOp) :
    ∀ (s s2 : Ledger) (op : LifecycleOp), applySeq s fniId ops = Except.ok s2 →
      ops.getLast? = some op →
      ∃ r, findInstance s2 fniId = some r ∧ r.state = op.target := by
  induction ops with
  | nil =>
    intro s s2 op h hl
    exact absurd hl (by simp)
  | cons o rest ih =>
    intro s s2 op h hl
    simp only [applySeq] at h
    cases ha : applyOp s fniId o with
    | mk res1 s1 =>
      rw [ha] at h
      cases res1 with
      | error e =>
        simp at h
      | ok r0 =>
        simp only [] at h
        cases rest with
        | nil =>
          simp only [applySeq] at h
          injection h with e2
          simp only [List.getLast?_singleton, Option.some.injEq] at hl
          obtain ⟨h1, h2⟩ := applyOp_ok s fniId o r0 s1 ha
          rw [← e2, ← hl]
          exact ⟨r0, h1, h2⟩
        | cons o2 rest2 =>
          rw [List.getLast?_cons_cons] at hl
          exact ih s1 s2 op h hl

/-- C1: for every sequence of lifecycle transitions on one flowNodeInstanceId
that respects the transition table (every step succeeds), the state stored for
that instance afterwards is the target state of the last applied transition,
and queryByInstanceId returns that record. -/
theorem applySeq_final_state (s s2 : Ledger) (fniId : String) (ops : List LifecycleOp)
    (op : LifecycleOp) (hok : applySeq s fniId ops = Except.ok s2)
    (hlast : ops.getLast? = some op) :
    ∃ r, findInstance s2 fniId = some r ∧ r.state = op.target
      ∧ queryByInstanceId s2 fniId = Except.ok r := by
  obtain ⟨r, h1, h2⟩ := applySeq_ok_last fniId ops s s2 op hok hlast
  refine ⟨r, h1, h2, ?_⟩
  simp only [queryByInstanceId, h1]

/-- The enter, suspend, resume, exit scenario of the spec, aimed at fni1. -/
def demoOps : List LifecycleOp :=
  [LifecycleOp.enter fnA tokA none, LifecycleOp.pause "fn1" tokA,
    LifecycleOp.res "fn1" tokB, LifecycleOp.finish fnA tokB]

/-- The ledger produced by running the demo scenario on the empty ledger. -/
def demoFinal : Ledger := ((applySeq emptyLedger "fni1" demoOps).toOption).getD emptyLedger

/-- Witness for C1: after the enter, suspend, resume, exit scenario, the
stored record for fni1 has the target state of the final transition, finished,
and queryByInstanceId returns it. -/
theorem applySeq_final_state_example :
    ∃ r, findInstance demoFinal "fni1" = some r
      ∧ r.state = (LifecycleOp.finish fnA tokB).target
      ∧ queryByInstanceId demoFinal "fni1" = Except.ok r :=
  applySeq_final_state emptyLedger demoFinal "fni1" demoOps (LifecycleOp.finish fnA tokB)
    (by decide) (by decide)

end FlowNodeInstanceService
